import Mathlib

/-!
Shallow embedding of the dreamwish-backend inbound-message pipeline:
the data model (`backend/models.py`), the business-hours service
(`backend/services/business_hours.py`), agent assignment
(`backend/services/agent_assignment.py`), the chatbot auto-response
decisions (`services/ollama_chatbot.py`, `services/ai_chatbot.py`),
the webhook normalization pipeline (`backend/routers/webhook.py`) and
the WebSocket connection registry (`backend/websocket.py`).

Rows are plain structures; a SQLAlchemy session is a `DB` record of row
lists; `query(...).filter(...).first()` is `List.find?`; mutating the
row returned by `.first()` is `updateFirst`.  Wall-clock time is passed
explicitly as `(currentDay, currentTime)` with the weekday numbered as
in Python (`0` = Monday) and the time of day in minutes.  Calls that can
raise in Python are given an explicit `Except` outcome parameter.
-/

/-- User row (`models.py`, table `users`); only the columns read by the
modelled operations are included. -/
structure User where
  id : Nat
  role : String
  is_active : Bool
  status : String
  auto_assign : Bool
  max_concurrent_chats : Nat
deriving DecidableEq

/-- Customer row (`models.py`, table `customers`), restricted to the
columns the webhook pipeline touches. -/
structure Customer where
  id : Nat
  external_id : String
  platform : String
  name : String
  profile_image : Option String
deriving DecidableEq

/-- Conversation row (`models.py`, table `conversations`), restricted to
the columns the modelled operations touch. -/
structure Conversation where
  id : Nat
  customer_id : Nat
  channel_type : String
  status : String
  assigned_agent_id : Option Nat
  assigned_at : Option Nat
  priority : Nat
  unread_count : Nat
  last_message_at : Option Nat
  profile_name : Option String
  profile_image : Option String
deriving DecidableEq

/-- Message row (`models.py`, table `messages`), restricted to the
columns the webhook pipeline writes. -/
structure Message where
  id : Nat
  conversation_id : Nat
  sender_type : String
  sender_id : Option Nat
  content : String
  channel : String
  message_type : String
  status : String
deriving DecidableEq

/-- BusinessHours row (`models.py`, table `business_hours`). -/
structure BusinessHours where
  day_of_week : Nat
  open_time : String
  close_time : String
  is_active : Bool
deriving DecidableEq

/-- The database state seen by one request. -/
structure DB where
  users : List User
  customers : List Customer
  conversations : List Conversation
  messages : List Message
  business_hours : List BusinessHours
deriving DecidableEq

/-- Mutate the first element satisfying `p`, the way SQLAlchemy mutates
the row object returned by `.first()`. -/
def updateFirst (p : α → Bool) (f : α → α) : List α → List α
  | [] => []
  | x :: xs => if p x then f x :: xs else x :: updateFirst p f xs

/-- Substring containment on character lists (Python's `needle in hay`). -/
def listContainsSub : List Char → List Char → Bool
  | needle, [] => needle.isEmpty
  | needle, c :: rest => needle.isPrefixOf (c :: rest) || listContainsSub needle rest

/-- Python's `needle in hay` for strings. -/
def strContains (hay needle : String) : Bool :=
  listContainsSub needle.toList hay.toList

/-- Python's `str.strip()` restricted to ASCII whitespace, written as a
structurally recursive function on the character list. -/
def pyStrip (s : String) : String :=
  ⟨((s.toList.dropWhile Char.isWhitespace).reverse.dropWhile Char.isWhitespace).reverse⟩

namespace OllamaChatbot

/-- The `simple_keywords` list of `OllamaChatbot.should_auto_respond`
(`services/ollama_chatbot.py`). -/
def simpleKeywords : List String :=
  ["안녕", "사용법", "방법", "기능", "채널", "연동",
   "위젯", "대시보드", "팀원", "초대", "가입", "로그인"]

/-- `OllamaChatbot.should_auto_respond`: true iff the message contains a
simple keyword. -/
def should_auto_respond (message : String) : Bool :=
  simpleKeywords.any (fun keyword => strContains message keyword)

/-- Message returned when the Ollama client is unavailable. -/
def unavailableMessage : String :=
  "죄송합니다. 현재 AI 챗봇 서비스를 사용할 수 없습니다. 상담원과 연결해드리겠습니다."

/-- Message returned by the `except` handler of `get_response`. -/
def errorFallbackMessage : String :=
  "죄송합니다. 일시적인 오류가 발생했습니다. 상담원과 연결해드리겠습니다."

/-- Suffix appended when an answer longer than 500 characters is cut. -/
def truncationSuffix : String :=
  "...\n\n더 자세한 내용은 상담원과 연결해드리겠습니다."

/-- `OllamaChatbot.get_response`: `available` models `self.available and
ollama`; `chatOutcome` models the `ollama.chat` call returning the answer
content or raising.  The whole body is wrapped in `try/except`, so a
raised exception becomes the fallback apology string. -/
def get_response (available : Bool) (chatOutcome : Except Unit String) : String :=
  if !available then unavailableMessage
  else
    match chatOutcome with
    | Except.error _ => errorFallbackMessage
    | Except.ok content =>
      let answer := pyStrip content
      if answer.length > 500 then answer.take 500 ++ truncationSuffix
      else answer

end OllamaChatbot

namespace AIChatbot

/-- The `simple_keywords` list of `AIChatbot.should_auto_respond`
(`services/ai_chatbot.py`); the source defines it but its return logic
does not consult it. -/
def simpleKeywords : List String :=
  ["안녕", "문의", "궁금", "질문", "알려", "뭐", "어떻게"]

/-- The `complex_keywords` list of `AIChatbot.should_auto_respond`
(`services/ai_chatbot.py`): contract, legal, lawsuit, urgent, agent,
directly. -/
def complexKeywords : List String :=
  ["계약", "법률", "소송", "긴급", "상담원", "직접"]

/-- `AIChatbot.should_auto_respond` (`services/ai_chatbot.py`): the only
complex-keyword check in the repository; the webhook pipeline does not
call it. -/
def should_auto_respond (message : String) : Bool :=
  let messageLower := message.toLower
  if complexKeywords.any (fun kw => strContains messageLower kw) then false
  else true

end AIChatbot

/-- Numeric value of a decimal digit character. -/
def digitVal (c : Char) : Nat :=
  c.toNat - 48

/-- Parse a `"HH:MM"` wall-clock string into minutes since midnight
(`datetime.strptime(..., "%H:%M").time()`, with time-of-day comparison
rendered as comparison of minute counts; the stored strings have the
fixed five-character shape). -/
def parseTimeMinutes (s : String) : Nat :=
  match s.toList with
  | [h1, h2, ':', m1, m2] =>
    (digitVal h1 * 10 + digitVal h2) * 60 + (digitVal m1 * 10 + digitVal m2)
  | _ => 0

/-- Number of open conversations currently assigned to the agent
(the count subquery of `get_available_agents`). -/
def currentLoad (db : DB) (agentId : Nat) : Nat :=
  (db.conversations.filter
    (fun c => c.assigned_agent_id == some agentId && c.status == "open")).length

/-- One entry of the list built by `get_available_agents`. -/
structure AvailableAgent where
  agent : User
  current_load : Nat
  capacity : Nat
deriving DecidableEq

/-- The agent-pool filter of `get_available_agents`: role, active flag,
online status, auto-assign flag. -/
def eligibleAgent (u : User) : Bool :=
  u.role == "agent" && u.is_active && u.status == "online" && u.auto_assign

namespace AgentAssignmentService

/-- The `available` list of `get_available_agents` as built by its loop,
before the final sort: eligible agents annotated with load and capacity,
kept only when strictly below capacity. -/
def availableUnsorted (db : DB) : List AvailableAgent :=
  (db.users.filter eligibleAgent).filterMap (fun agent =>
    let cur := currentLoad db agent.id
    if cur < agent.max_concurrent_chats then
      some { agent := agent, current_load := cur, capacity := agent.max_concurrent_chats }
    else none)

/-- Sort key of `available.sort(key=lambda x: x["current_load"])`. -/
def loadLE (x y : AvailableAgent) : Prop :=
  x.current_load ≤ y.current_load

instance : DecidableRel loadLE :=
  fun x y => inferInstanceAs (Decidable (x.current_load ≤ y.current_load))

instance : IsTotal AvailableAgent loadLE :=
  ⟨fun x y => Nat.le_total x.current_load y.current_load⟩

instance : IsTrans AvailableAgent loadLE :=
  ⟨fun _ _ _ hxy hyz => Nat.le_trans hxy hyz⟩

/-- `AgentAssignmentService.get_available_agents`: Python's list `sort`
is a stable ascending sort, modelled by insertion sort on `loadLE`. -/
def get_available_agents (db : DB) : List AvailableAgent :=
  List.insertionSort loadLE (availableUnsorted db)

/-- `AgentAssignmentService.assign_agent_to_conversation`; returns the
success flag and the resulting database state. -/
def assign_agent_to_conversation (db : DB) (now : Nat) (conversationId : Nat) :
    Bool × DB :=
  match db.conversations.find? (fun c => c.id == conversationId) with
  | none => (false, db)
  | some conversation =>
    if conversation.assigned_agent_id.isSome then (true, db)
    else
      match get_available_agents db with
      | [] => (false, db)
      | selected :: _ =>
        let conversations := updateFirst (fun c => c.id == conversationId)
          (fun c => { c with
            assigned_agent_id := some selected.agent.id,
            assigned_at := some now,
            status := "open" })
          db.conversations
        (true, { db with conversations := conversations })

/-- `AgentAssignmentService.reassign_agent`; returns the success flag
and the resulting database state. -/
def reassign_agent (db : DB) (now : Nat) (conversationId newAgentId : Nat) :
    Bool × DB :=
  match db.conversations.find? (fun c => c.id == conversationId) with
  | none => (false, db)
  | some _ =>
    match db.users.find? (fun u => u.id == newAgentId && u.role == "agent") with
    | none => (false, db)
    | some _ =>
      let conversations := updateFirst (fun c => c.id == conversationId)
        (fun c => { c with
          assigned_agent_id := some newAgentId,
          assigned_at := some now })
        db.conversations
      (true, { db with conversations := conversations })

end AgentAssignmentService

namespace BusinessHoursService

/-- `BusinessHoursService.is_business_hours`: look up today's record
among the rows with `is_active == True`; fail open when none matches;
otherwise compare against the parsed window (both bounds inclusive). -/
def is_business_hours (db : DB) (currentDay currentTime : Nat) : Bool :=
  match db.business_hours.find?
      (fun bh => bh.day_of_week == currentDay && bh.is_active) with
  | none => true
  | some bh =>
    decide (parseTimeMinutes bh.open_time ≤ currentTime) &&
    decide (currentTime ≤ parseTimeMinutes bh.close_time)

/-- The rows written by `create_default_business_hours`: Monday–Friday
09:00–18:00 active, Saturday–Sunday inactive (the source comments mark
them 휴무, i.e. days off). -/
def defaultBusinessHours : List BusinessHours :=
  ((List.range 5).map (fun day =>
    { day_of_week := day, open_time := "09:00", close_time := "18:00",
      is_active := true })) ++
  ([5, 6].map (fun day =>
    { day_of_week := day, open_time := "00:00", close_time := "00:00",
      is_active := false }))

/-- `BusinessHoursService.should_auto_respond`: auto-respond outside
business hours, or during hours when no agent is available. -/
def should_auto_respond (db : DB) (currentDay currentTime : Nat) : Bool :=
  if !is_business_hours db currentDay currentTime then true
  else if (AgentAssignmentService.get_available_agents db).isEmpty then true
  else false

end BusinessHoursService

/-- Python truthiness of an optional string (`None` and `""` are falsy). -/
def optTruthy : Option String → Bool
  | none => false
  | some s => s != ""

/-- Step 1 of `process_incoming_message` (`webhook.py`): find the
customer by external id and platform, else create one; on a hit, update
the stored name and profile image when the incoming ones are truthy and
differ. -/
def find_or_create_customer (db : DB) (platform externalId name : String)
    (profileImage : Option String) (freshId : Nat) : Customer × DB :=
  match db.customers.find?
      (fun c => c.external_id == externalId && c.platform == platform) with
  | none =>
    let customer : Customer :=
      { id := freshId, external_id := externalId, platform := platform,
        name := if name != "" then name else platform ++ "_user",
        profile_image := profileImage }
    (customer, { db with customers := db.customers ++ [customer] })
  | some found =>
    let customer := if name != "" && !(found.name == name)
      then { found with name := name } else found
    let customer :=
      if optTruthy profileImage &&
          !(customer.profile_image.getD "" == profileImage.getD "")
      then { customer with profile_image := profileImage } else customer
    let customers := updateFirst
      (fun c => c.external_id == externalId && c.platform == platform)
      (fun _ => customer) db.customers
    (customer, { db with customers := customers })

/-- The conversation lookup predicate of step 2 of
`process_incoming_message`: customer id and channel type — and nothing
else. -/
def convMatches (customerId : Nat) (platform : String) (c : Conversation) : Bool :=
  c.customer_id == customerId && c.channel_type == platform

/-- Result of the find-or-create-conversation step. -/
structure ConvResult where
  conversation : Conversation
  db : DB
  created : Bool
deriving DecidableEq

/-- Step 2 of `process_incoming_message`: find the conversation by
customer and channel, else create an open one and auto-assign an agent
to it; on a hit, update the stored profile name and image when the
incoming ones are truthy and differ. -/
def find_or_create_conversation (db : DB) (customerId : Nat)
    (platform name : String) (profileImage : Option String)
    (freshConvId now : Nat) : ConvResult :=
  match db.conversations.find? (convMatches customerId platform) with
  | none =>
    let conversation : Conversation :=
      { id := freshConvId, customer_id := customerId, channel_type := platform,
        status := "open", assigned_agent_id := none, assigned_at := none,
        priority := 0, unread_count := 0, last_message_at := none,
        profile_name := some name, profile_image := profileImage }
    let db1 := { db with conversations := db.conversations ++ [conversation] }
    let db2 := (AgentAssignmentService.assign_agent_to_conversation db1 now freshConvId).2
    { conversation := (db2.conversations.find? (fun c => c.id == freshConvId)).getD conversation,
      db := db2, created := true }
  | some found =>
    let conversation := if name != "" && !(found.profile_name.getD "" == name)
      then { found with profile_name := some name } else found
    let conversation :=
      if optTruthy profileImage &&
          !(conversation.profile_image.getD "" == profileImage.getD "")
      then { conversation with profile_image := profileImage } else conversation
    let conversations := updateFirst (convMatches customerId platform)
      (fun _ => conversation) db.conversations
    { conversation := conversation,
      db := { db with conversations := conversations }, created := false }

/-- The auto-response decision of `process_incoming_message`
(`webhook.py` lines 123–125): the business-hours/agent-capacity check
OR-ed with the Ollama chatbot's keyword check. -/
def webhook_should_auto_respond (db : DB) (currentDay currentTime : Nat)
    (message : String) : Bool :=
  BusinessHoursService.should_auto_respond db currentDay currentTime ||
  OllamaChatbot.should_auto_respond message

/-- The inbound customer `Message` row written by step 3 of
`process_incoming_message`. -/
def mkCustomerMessage (id convId : Nat) (content platform : String) : Message :=
  { id := id, conversation_id := convId, sender_type := "customer",
    sender_id := none, content := content, channel := platform,
    message_type := "text", status := "received" }

/-- The bot `Message` row written by step 5 of
`process_incoming_message`; `message_type` and `status` take the column
defaults `"text"` and `"sent"`. -/
def mkBotMessage (id convId : Nat) (content platform : String) : Message :=
  { id := id, conversation_id := convId, sender_type := "bot",
    sender_id := none, content := content, channel := platform,
    message_type := "text", status := "sent" }

/-- Step 5 of `process_incoming_message` in isolation: append the AI
reply as a bot message iff the reply string is truthy. -/
def appendAiMessage (msgs : List Message) (freshId convId : Nat)
    (platform aiResponse : String) : List Message :=
  if aiResponse != "" then msgs ++ [mkBotMessage freshId convId aiResponse platform]
  else msgs

/-- Outcome of `process_incoming_message`: the database after the
request, the conversation id, the `ai_responded` flag of the broadcast
payload, and how many WebSocket broadcasts were sent. -/
structure ProcessResult where
  db : DB
  conversationId : Nat
  aiResponded : Bool
  broadcasts : Nat
deriving DecidableEq

/-- `process_incoming_message` (`webhook.py`): normalize one inbound
channel event.  The fresh ids stand for the primary keys the database
would allocate; `now` is `datetime.utcnow()`; `chatOutcome` models the
`ollama.chat` call of `get_response`. -/
def process_incoming_message (db : DB) (platform externalId name : String)
    (profileImage : Option String) (message : String)
    (freshCustomerId freshConvId freshMsgId freshAiMsgId : Nat)
    (now currentDay currentTime : Nat)
    (ollamaAvailable : Bool) (chatOutcome : Except Unit String) : ProcessResult :=
  let step1 := find_or_create_customer db platform externalId name profileImage freshCustomerId
  let customer := step1.1
  let db1 := step1.2
  let step2 := find_or_create_conversation db1 customer.id platform name profileImage freshConvId now
  let conversation := step2.conversation
  let db2 := step2.db
  let msg := mkCustomerMessage freshMsgId conversation.id message platform
  let conversations3 := updateFirst (fun c => c.id == conversation.id)
    (fun c => { c with last_message_at := some now, unread_count := c.unread_count + 1 })
    db2.conversations
  let db3 := { db2 with messages := db2.messages ++ [msg], conversations := conversations3 }
  let decision := webhook_should_auto_respond db3 currentDay currentTime message
  let aiResponse : Option String :=
    if decision then some (OllamaChatbot.get_response ollamaAvailable chatOutcome)
    else none
  let db4 :=
    match aiResponse with
    | none => db3
    | some resp =>
      { db3 with messages := appendAiMessage db3.messages freshAiMsgId conversation.id platform resp }
  { db := db4, conversationId := conversation.id,
    aiResponded := aiResponse.isSome, broadcasts := 1 }

/-- The text-message path of `kakao_webhook` after payload extraction:
`process_incoming_message` runs only when both `user_id` and the message
text are truthy (non-empty) strings.  Returns the database and the
number of broadcasts sent. -/
def kakao_handle_message (db : DB) (userId userName message : String)
    (profileImage : Option String)
    (freshCustomerId freshConvId freshMsgId freshAiMsgId : Nat)
    (now currentDay currentTime : Nat)
    (ollamaAvailable : Bool) (chatOutcome : Except Unit String) : DB × Nat :=
  if userId != "" && message != "" then
    let r := process_incoming_message db "kakao" userId userName profileImage message
      freshCustomerId freshConvId freshMsgId freshAiMsgId now currentDay currentTime
      ollamaAvailable chatOutcome
    (r.db, r.broadcasts)
  else (db, 0)

/-- A registered WebSocket: `broken` models a channel whose `send_text`
raises. -/
structure WSChannel where
  broken : Bool
deriving DecidableEq

/-- `websocket.send_text`: raises on a broken channel. -/
def sendText (ch : WSChannel) : Except Unit Unit :=
  if ch.broken then Except.error () else Except.ok ()

namespace ConnectionManager

/-- `ConnectionManager.send_personal_message` (`backend/websocket.py`
lines 29–32): look up `client_id` in `active_connections`; when absent
do nothing; when present call `send_text` with no surrounding exception
handler.  Returns the delivery outcome and the registry afterwards. -/
def send_personal_message (connections : List (String × WSChannel))
    (message clientId : String) : Except Unit Unit × List (String × WSChannel) :=
  match connections.find? (fun p => p.1 == clientId) with
  | none => (Except.ok (), connections)
  | some p => (sendText p.2, connections)

end ConnectionManager

/-- A database that only has the default business-hours rows. -/
def defaultHoursDB : DB :=
  { users := [], customers := [], conversations := [], messages := [],
    business_hours := BusinessHoursService.defaultBusinessHours }

/-- A database holding one active Saturday business-hours row
(09:00–18:00). -/
def saturdayHoursDB : DB :=
  { users := [], customers := [], conversations := [], messages := [],
    business_hours :=
      [{ day_of_week := 5, open_time := "09:00", close_time := "18:00",
         is_active := true }] }

/-- The empty database. -/
def emptyDB : DB :=
  { users := [], customers := [], conversations := [], messages := [],
    business_hours := [] }

/-- An eligible online agent with spare capacity. -/
def agentTen : User :=
  { id := 10, role := "agent", is_active := true, status := "online",
    auto_assign := true, max_concurrent_chats := 5 }

/-- An open, unassigned kakao conversation. -/
def openUnassignedConv : Conversation :=
  { id := 1, customer_id := 1, channel_type := "kakao", status := "open",
    assigned_agent_id := none, assigned_at := none, priority := 0,
    unread_count := 0, last_message_at := none, profile_name := none,
    profile_image := none }

/-- A closed kakao conversation of customer 1. -/
def closedConv : Conversation :=
  { openUnassignedConv with status := "closed" }

/-- A database with one available agent and one open unassigned
conversation. -/
def dbAssign : DB :=
  { users := [agentTen], customers := [], conversations := [openUnassignedConv],
    messages := [], business_hours := [] }

/-- A database whose only kakao conversation for customer 1 is closed. -/
def dbClosedConv : DB :=
  { users := [],
    customers := [{ id := 1, external_id := "u1", platform := "kakao",
                    name := "Kim", profile_image := none }],
    conversations := [closedConv], messages := [], business_hours := [] }

/-- An open conversation already assigned to agent 10. -/
def assignedConv : Conversation :=
  { openUnassignedConv with assigned_agent_id := some 10, assigned_at := some 50 }

/-- A database whose conversation 1 is already assigned. -/
def dbAssigned : DB :=
  { users := [agentTen], customers := [], conversations := [assignedConv],
    messages := [], business_hours := [] }

/-- A registry with a single registered but broken channel. -/
def brokenRegistry : List (String × WSChannel) :=
  [("agent_1", { broken := true })]

/-- A database where agent 10 already carries one open conversation
(load 1 of capacity 5) and conversation 2 is open and unassigned. -/
def dbLoaded : DB :=
  { users := [agentTen], customers := [],
    conversations := [assignedConv, { openUnassignedConv with id := 2 }],
    messages := [], business_hours := [] }

/-- C3. The is-business-hours check on a weekday whose record is
inactive (the default Saturday row, day 5) returns open — at noon and at
midnight alike — because the lookup filters on `is_active == True` and
the fail-open branch fires; the claim (and the default-setup comment
marking weekends as days off) says the whole day must be closed. -/
theorem inactive_day_reports_open :
    BusinessHoursService.is_business_hours defaultHoursDB 5 720 = true ∧
    BusinessHoursService.is_business_hours defaultHoursDB 5 0 = true ∧
    (BusinessHoursService.defaultBusinessHours.find?
      (fun bh => bh.day_of_week == 5)).map BusinessHours.is_active = some false := by
  decide

/-- C1 counterexample. The message `"긴급한 계약 문의"` contains the
complex keywords 긴급 (urgent) and 계약 (contract) and no simple
keyword, yet with business hours closed (Saturday 20:00 against an
active 09:00–18:00 Saturday row, and no agent online) the webhook
auto-response decision is true, so a bot reply is produced; the claim
says it must be false regardless of hours and availability. -/
theorem complex_keyword_message_still_auto_responds :
    AIChatbot.complexKeywords.any (fun kw => strContains "긴급한 계약 문의" kw) = true ∧
    OllamaChatbot.should_auto_respond "긴급한 계약 문의" = false ∧
    BusinessHoursService.is_business_hours saturdayHoursDB 5 1200 = false ∧
    webhook_should_auto_respond saturdayHoursDB 5 1200 "긴급한 계약 문의" = true := by
  decide

/-- C2 counterexample. Customer 1's only kakao conversation is closed,
yet the find-or-create step reuses it: nothing is created
(`created = false`), the returned conversation is the closed row, and
the conversation count stays at one — the lookup does not filter on
`status = "open"`, so no new conversation is created after closure. -/
theorem closed_conversation_reused :
    (find_or_create_conversation dbClosedConv 1 "kakao" "Kim" none 2 100).created = false ∧
    (find_or_create_conversation dbClosedConv 1 "kakao" "Kim" none 2 100).conversation.id = 1 ∧
    (find_or_create_conversation dbClosedConv 1 "kakao" "Kim" none 2 100).conversation.status = "closed" ∧
    (find_or_create_conversation dbClosedConv 1 "kakao" "Kim" none 2 100).db.conversations.length = 1 := by
  decide

/-- C4 counterexample. When reply generation raises, `get_response`
returns the non-empty fallback apology, so the webhook appends a bot
message: running the pipeline with a failing `ollama.chat` leaves two
messages (the customer message and the fallback bot message), with the
broadcast still sent — the claim says no bot message is appended. -/
theorem failed_generation_appends_fallback :
    OllamaChatbot.get_response true (Except.error ()) = OllamaChatbot.errorFallbackMessage ∧
    (OllamaChatbot.errorFallbackMessage != "") = true ∧
    appendAiMessage [] 7 3 "kakao" (OllamaChatbot.get_response true (Except.error ())) =
      [mkBotMessage 7 3 OllamaChatbot.errorFallbackMessage "kakao"] ∧
    (process_incoming_message emptyDB "kakao" "u1" "Kim" none "문의합니다"
      1 2 3 4 100 5 1200 true (Except.error ())).db.messages.map Message.sender_type =
      ["customer", "bot"] ∧
    (process_incoming_message emptyDB "kakao" "u1" "Kim" none "문의합니다"
      1 2 3 4 100 5 1200 true (Except.error ())).broadcasts = 1 := by
  decide

/-- C5 counterexample. A whitespace-only message text `" "` passes the
kakao truthiness guard, so the pipeline is not a no-op: a customer, a
conversation and a message (with the blank content) are created and one
broadcast is sent — the claim says blank-or-whitespace input causes zero
mutations and zero broadcasts. -/
theorem whitespace_message_processed :
    (kakao_handle_message emptyDB "user1" "Kim" " " none 1 2 3 4 100 0 600 true (Except.ok "")).2 = 1 ∧
    (kakao_handle_message emptyDB "user1" "Kim" " " none 1 2 3 4 100 0 600 true (Except.ok "")).1.customers.length = 1 ∧
    (kakao_handle_message emptyDB "user1" "Kim" " " none 1 2 3 4 100 0 600 true (Except.ok "")).1.conversations.length = 1 ∧
    (kakao_handle_message emptyDB "user1" "Kim" " " none 1 2 3 4 100 0 600 true (Except.ok "")).1.messages.map Message.content = [" "] := by
  decide

/-- C9 counterexample. Sending to a registered client whose channel is
broken propagates the exception out of `send_personal_message` (there is
no `try/except` around its `send_text` call), while the claim says the
failure is caught and logged inside the registry. -/
theorem broken_channel_send_raises :
    ConnectionManager.send_personal_message brokenRegistry "hello" "agent_1" =
      (Except.error (), brokenRegistry) := by
  rfl

lemma updateFirst_length (p : α → Bool) (f : α → α) (l : List α) :
    (updateFirst p f l).length = l.length := by
  induction l with
  | nil => rfl
  | cons x xs ih =>
    unfold updateFirst
    by_cases h : p x = true
    · rw [if_pos h]; simp
    · rw [if_neg h]; simp [ih]

lemma assign_conversations_length (db : DB) (now cid : Nat) :
    ((AgentAssignmentService.assign_agent_to_conversation db now cid).2).conversations.length
      = db.conversations.length := by
  unfold AgentAssignmentService.assign_agent_to_conversation
  rcases h : db.conversations.find? (fun c => c.id == cid) with _ | conv
  · rw [h]
  · rw [h]
    dsimp only
    by_cases has : conv.assigned_agent_id.isSome = true
    · rw [if_pos has]
    · rw [if_neg has]
      rcases hav : AgentAssignmentService.get_available_agents db with _ | ⟨sel, rest⟩
      · rfl
      · exact updateFirst_length _ _ _

/-- C1 (amended). The webhook auto-response decision is false exactly
when it is currently business hours, at least one agent is available,
and the message contains none of the Ollama chatbot's simple keywords;
complex keywords are never consulted, so a complex-keyword message still
triggers a bot reply whenever hours are closed, no agent is available,
or a simple keyword co-occurs. -/
theorem webhook_decision_has_no_keyword_precedence (db : DB)
    (currentDay currentTime : Nat) (message : String) :
    webhook_should_auto_respond db currentDay currentTime message = false ↔
      (BusinessHoursService.is_business_hours db currentDay currentTime = true ∧
       AgentAssignmentService.get_available_agents db ≠ [] ∧
       ∀ kw ∈ OllamaChatbot.simpleKeywords, strContains message kw = false) := by
  unfold webhook_should_auto_respond BusinessHoursService.should_auto_respond
    OllamaChatbot.should_auto_respond
  rcases hbh : BusinessHoursService.is_business_hours db currentDay currentTime with _ | _
  · simp
  · rcases hemp : (AgentAssignmentService.get_available_agents db).isEmpty with _ | _
    · have hne : AgentAssignmentService.get_available_agents db ≠ [] := by
        intro h; rw [h] at hemp; simp at hemp
      simp [hemp, hne, List.any_eq_false]
    · have heq : AgentAssignmentService.get_available_agents db = [] :=
        List.isEmpty_iff.mp hemp
      simp [hemp, heq]

/-- C2 (amended). The find-or-create-conversation step creates a new
conversation exactly when the customer has no conversation of any status
on the channel (the lookup filters only on customer and channel), and
the conversation count grows by one exactly in that case — an existing
closed conversation is reused, not replaced. -/
theorem find_or_create_ignores_status (db : DB) (customerId : Nat)
    (platform name : String) (profileImage : Option String)
    (freshConvId now : Nat) :
    (find_or_create_conversation db customerId platform name profileImage freshConvId now).created
        = (db.conversations.find? (convMatches customerId platform)).isNone ∧
    (find_or_create_conversation db customerId platform name profileImage freshConvId now).db.conversations.length
        = (if (db.conversations.find? (convMatches customerId platform)).isNone
           then db.conversations.length + 1
           else db.conversations.length) := by
  unfold find_or_create_conversation
  rcases hfind : db.conversations.find? (convMatches customerId platform) with _ | found
  · refine ⟨rfl, ?_⟩
    simp only [Option.isNone_none, if_pos]
    rw [assign_conversations_length]
    simp
  · refine ⟨rfl, ?_⟩
    simp only [Option.isNone_some, Bool.false_eq_true, if_neg]
    exact updateFirst_length _ _ _

/-- C4 (amended). When reply generation raises, `get_response` absorbs
the exception and returns the fixed non-empty fallback apology, which
the webhook appends as a bot message; the pipeline continues normally to
the broadcast step, with no error surfaced to the webhook caller. -/
theorem generation_failure_absorbed_with_fallback (msgs : List Message)
    (freshId convId : Nat) (platform externalId name message : String)
    (profileImage : Option String) (db : DB)
    (a b c d now day time : Nat) :
    OllamaChatbot.get_response true (Except.error ()) = OllamaChatbot.errorFallbackMessage ∧
    appendAiMessage msgs freshId convId platform (OllamaChatbot.get_response true (Except.error ())) =
      msgs ++ [mkBotMessage freshId convId OllamaChatbot.errorFallbackMessage platform] ∧
    (process_incoming_message db platform externalId name profileImage message
      a b c d now day time true (Except.error ())).broadcasts = 1 := by
    refine ⟨rfl, ?_, rfl⟩
    unfold appendAiMessage
    rw [if_pos (by decide)]
    rfl

/-- C5 (amended). The kakao handler's guard tests string truthiness,
not stripped content: an empty message text, or an empty user id, makes
the whole pipeline a no-op (database returned unchanged, zero
broadcasts); whitespace-only text is not caught by it. -/
theorem empty_input_no_op (db : DB) (userId userName message : String)
    (profileImage : Option String) (a b c d now day time : Nat)
    (avail : Bool) (outcome : Except Unit String) :
    kakao_handle_message db userId userName "" profileImage
      a b c d now day time avail outcome = (db, 0) ∧
    kakao_handle_message db "" userName message profileImage
      a b c d now day time avail outcome = (db, 0) := by
  constructor <;> simp [kakao_handle_message]

/-- C9 (amended). Sending to an unregistered client id is a silent
no-op that does not raise; the registry is never modified by a send (the
client stays registered even when delivery fails); but there is no
exception handling in `send_personal_message`, so a failing send on a
registered broken channel propagates the error to the caller. -/
theorem send_personal_message_no_catch (connections : List (String × WSChannel))
    (message clientId : String) :
    (connections.find? (fun p => p.1 == clientId) = none →
      ConnectionManager.send_personal_message connections message clientId =
        (Except.ok (), connections)) ∧
    (ConnectionManager.send_personal_message connections message clientId).2 = connections ∧
    (∀ p, connections.find? (fun p => p.1 == clientId) = some p →
      p.2.broken = true →
      (ConnectionManager.send_personal_message connections message clientId).1 =
        Except.error ()) := by
  refine ⟨?_, ?_, ?_⟩
  · intro h
    unfold ConnectionManager.send_personal_message
    rw [h]
  · unfold ConnectionManager.send_personal_message
    rcases h : connections.find? (fun p => p.1 == clientId) with _ | p <;> rw [h]
  · intro p hp hbroken
    unfold ConnectionManager.send_personal_message
    rw [hp]
    dsimp only
    unfold sendText
    rw [if_pos hbroken]

/-- C9 witness: sending to an absent id on the empty registry is a
silent successful no-op. -/
theorem send_personal_message_no_catch_witness :
    ConnectionManager.send_personal_message [] "m" "absent" = (Except.ok (), []) :=
  (send_personal_message_no_catch [] "m" "absent").1 rfl

/-- C1 witness: with one available agent, empty business-hours table
(fail-open) and a keyword-free message, the decision is false. -/
theorem webhook_decision_has_no_keyword_precedence_witness :
    webhook_should_auto_respond dbAssign 0 600 "hello" = false :=
  (webhook_decision_has_no_keyword_precedence dbAssign 0 600 "hello").mpr (by decide)

lemma mem_availableUnsorted {db : DB} {e : AvailableAgent} :
    e ∈ AgentAssignmentService.availableUnsorted db ↔
      e.agent ∈ db.users ∧ eligibleAgent e.agent = true ∧
      e.current_load = currentLoad db e.agent.id ∧
      e.capacity = e.agent.max_concurrent_chats ∧
      e.current_load < e.capacity := by
  unfold AgentAssignmentService.availableUnsorted
  rw [List.mem_filterMap]
  constructor
  · rintro ⟨u, hu, hf⟩
    rw [List.mem_filter] at hu
    dsimp only at hf
    by_cases hlt : currentLoad db u.id < u.max_concurrent_chats
    · rw [if_pos hlt] at hf
      have he := Option.some.inj hf
      subst he
      exact ⟨hu.1, hu.2, rfl, rfl, hlt⟩
    · rw [if_neg hlt] at hf
      exact absurd hf (by simp)
  · rintro ⟨hmem, helig, hload, hcap, hlt⟩
    refine ⟨e.agent, List.mem_filter.mpr ⟨hmem, helig⟩, ?_⟩
    dsimp only
    have hlt' : currentLoad db e.agent.id < e.agent.max_concurrent_chats := by
      rw [← hload, ← hcap]; exact hlt
    rw [if_pos hlt']
    obtain ⟨agent, load, cap⟩ := e
    dsimp only at hload hcap ⊢
    rw [hload, hcap]

lemma mem_get_available_agents {db : DB} {e : AvailableAgent} :
    e ∈ AgentAssignmentService.get_available_agents db ↔
      e ∈ AgentAssignmentService.availableUnsorted db :=
  (List.perm_insertionSort AgentAssignmentService.loadLE
    (AgentAssignmentService.availableUnsorted db)).mem_iff

/-- C6. Every entry of the available-agents computation has a pre-call
open-conversation load strictly below its `max_concurrent_chats`, and
when `assign_agent_to_conversation` reaches an existing unassigned
conversation it writes exactly the head of that computation — so the
selected agent's load at assignment time is strictly below capacity,
whatever that load is. -/
theorem assignment_respects_capacity (db : DB) (now convId : Nat) :
    (∀ e ∈ AgentAssignmentService.get_available_agents db,
        currentLoad db e.agent.id < e.agent.max_concurrent_chats) ∧
    (∀ conv, db.conversations.find? (fun c => c.id == convId) = some conv →
      conv.assigned_agent_id = none →
      ∀ selected rest,
        AgentAssignmentService.get_available_agents db = selected :: rest →
        AgentAssignmentService.assign_agent_to_conversation db now convId =
          (true, { db with
            conversations := updateFirst (fun c => c.id == convId)
              (fun c => { c with
                assigned_agent_id := some selected.agent.id,
                assigned_at := some now,
                status := "open" })
              db.conversations }) ∧
        currentLoad db selected.agent.id < selected.agent.max_concurrent_chats) := by
  constructor
  · intro e he
    obtain ⟨-, -, hload, hcap, hlt⟩ :=
      mem_availableUnsorted.mp (mem_get_available_agents.mp he)
    rw [← hload, ← hcap]
    exact hlt
  · intro conv hfind hnone selected rest hsel
    constructor
    · unfold AgentAssignmentService.assign_agent_to_conversation
      rw [hfind]
      dsimp only
      rw [if_neg (by simp [hnone]), hsel]
    · have hsel' : selected ∈ AgentAssignmentService.get_available_agents db := by
        rw [hsel]; exact List.mem_cons_self _ _
      obtain ⟨-, -, hload, hcap, hlt⟩ :=
        mem_availableUnsorted.mp (mem_get_available_agents.mp hsel')
      rw [← hload, ← hcap]
      exact hlt

/-- C6 witness: in `dbLoaded` agent 10 already carries load 1; assigning
the unassigned conversation 2 writes agent 10, whose load 1 is strictly
below capacity 5. -/
theorem assignment_respects_capacity_witness :
    AgentAssignmentService.assign_agent_to_conversation dbLoaded 200 2 =
      (true, { dbLoaded with
        conversations := updateFirst (fun c => c.id == 2)
          (fun c => { c with
            assigned_agent_id := some 10,
            assigned_at := some 200,
            status := "open" })
          dbLoaded.conversations }) ∧
    currentLoad dbLoaded 10 < 5 :=
  (assignment_respects_capacity dbLoaded 200 2).2
    { openUnassignedConv with id := 2 } (by decide) (by decide)
    { agent := agentTen, current_load := 1, capacity := 5 } [] (by decide)

/-- C8. When the conversation found by id already has an assigned
agent, `assign_agent_to_conversation` returns success with the database
untouched: assignee, assignment timestamp and status all keep their
values. -/
theorem assign_idempotent_when_assigned (db : DB) (now convId : Nat)
    (conv : Conversation)
    (h1 : db.conversations.find? (fun c => c.id == convId) = some conv)
    (h2 : conv.assigned_agent_id.isSome = true) :
    AgentAssignmentService.assign_agent_to_conversation db now convId = (true, db) := by
  unfold AgentAssignmentService.assign_agent_to_conversation
  rw [h1]
  dsimp only
  rw [if_pos h2]

/-- C8 witness: re-running assignment on the already-assigned
conversation of `dbAssigned` succeeds and changes nothing. -/
theorem assign_idempotent_when_assigned_witness :
    AgentAssignmentService.assign_agent_to_conversation dbAssigned 999 1 = (true, dbAssigned) :=
  assign_idempotent_when_assigned dbAssigned 999 1 assignedConv (by decide) (by decide)

/-- C10. `reassign_agent` returns false with the database unchanged
when the conversation is missing or when no user with the target id and
role `"agent"` exists; when both lookups succeed it unconditionally
overwrites the conversation's assignee and assignment timestamp, with no
capacity check. -/
theorem reassign_agent_characterization (db : DB) (now convId newAgentId : Nat) :
    (db.conversations.find? (fun c => c.id == convId) = none →
      AgentAssignmentService.reassign_agent db now convId newAgentId = (false, db)) ∧
    (db.users.find? (fun u => u.id == newAgentId && u.role == "agent") = none →
      AgentAssignmentService.reassign_agent db now convId newAgentId = (false, db)) ∧
    (∀ conv agent,
      db.conversations.find? (fun c => c.id == convId) = some conv →
      db.users.find? (fun u => u.id == newAgentId && u.role == "agent") = some agent →
      AgentAssignmentService.reassign_agent db now convId newAgentId =
        (true, { db with
          conversations := updateFirst (fun c => c.id == convId)
            (fun c => { c with
              assigned_agent_id := some newAgentId,
              assigned_at := some now })
            db.conversations })) := by
  refine ⟨?_, ?_, ?_⟩
  · intro h
    unfold AgentAssignmentService.reassign_agent
    rw [h]
  · intro h
    unfold AgentAssignmentService.reassign_agent
    rcases hc : db.conversations.find? (fun c => c.id == convId) with _ | conv
    · rw [hc]
    · rw [hc]
      dsimp only
      rw [h]
  · intro conv agent hc hu
    unfold AgentAssignmentService.reassign_agent
    rw [hc]
    dsimp only
    rw [hu]

/-- C10 witness: reassigning conversation 1 of `dbAssign` to the
nonexistent user 99 fails and leaves the database unchanged. -/
theorem reassign_agent_characterization_witness :
    AgentAssignmentService.reassign_agent dbAssign 77 1 99 = (false, dbAssign) :=
  (reassign_agent_characterization dbAssign 77 1 99).2.1 (by decide)

lemma filter_orderedInsert (v : Nat) (a : AvailableAgent) (l : List AvailableAgent) :
    (List.orderedInsert AgentAssignmentService.loadLE a l).filter
        (fun e => e.current_load == v) =
      if a.current_load == v
      then a :: l.filter (fun e => e.current_load == v)
      else l.filter (fun e => e.current_load == v) := by
  induction l with
  | nil =>
    rcases hav : (a.current_load == v) with _ | _ <;>
      simp [List.filter_cons, hav]
  | cons b bs ih =>
    by_cases hab : AgentAssignmentService.loadLE a b
    · rw [List.orderedInsert_of_le AgentAssignmentService.loadLE bs hab]
      simp only [List.filter_cons]
    · have hstep : List.orderedInsert AgentAssignmentService.loadLE a (b :: bs) =
          b :: List.orderedInsert AgentAssignmentService.loadLE a bs := by
        simp only [List.orderedInsert, if_neg hab]
      rw [hstep]
      rcases hav : (a.current_load == v) with _ | _
      · simp [List.filter_cons, ih, hav]
      · have ha' : a.current_load = v := by simpa using hav
        have hlt : b.current_load < a.current_load := by
          unfold AgentAssignmentService.loadLE at hab; omega
        have hbv : (b.current_load == v) = false := by
          simp only [beq_eq_false_iff_ne, ne_eq]
          omega
        simp [List.filter_cons, ih, hav, hbv]

lemma filter_insertionSort (v : Nat) (l : List AvailableAgent) :
    (List.insertionSort AgentAssignmentService.loadLE l).filter
        (fun e => e.current_load == v) =
      l.filter (fun e => e.current_load == v) := by
  induction l with
  | nil => rfl
  | cons a bs ih =>
    simp only [List.insertionSort]
    rw [filter_orderedInsert, ih, List.filter_cons]

/-- C7. The available-agents query returns exactly the users with role
`"agent"`, active flag, online status and auto-assign enabled whose open
conversation count is strictly below capacity, annotated with their
current load and capacity; the list is sorted ascending by current load;
and the sort is stable: restricted to any fixed load value, the result
lists exactly the entries of the pre-sort loop output in their original
(user-table iteration) order. -/
theorem available_agents_characterization (db : DB) :
    (∀ e : AvailableAgent,
      e ∈ AgentAssignmentService.get_available_agents db ↔
        (e.agent ∈ db.users ∧ eligibleAgent e.agent = true ∧
         e.current_load = currentLoad db e.agent.id ∧
         e.capacity = e.agent.max_concurrent_chats ∧
         e.current_load < e.capacity)) ∧
    List.Sorted AgentAssignmentService.loadLE
      (AgentAssignmentService.get_available_agents db) ∧
    (∀ v : Nat,
      (AgentAssignmentService.get_available_agents db).filter (fun e => e.current_load == v) =
        (AgentAssignmentService.availableUnsorted db).filter (fun e => e.current_load == v)) := by
  refine ⟨?_, ?_, ?_⟩
  · intro e
    exact mem_get_available_agents.trans mem_availableUnsorted
  · exact List.sorted_insertionSort AgentAssignmentService.loadLE _
  · intro v
    exact filter_insertionSort v _

/-- C7 witness: in `dbAssign` the query returns agent 10 annotated with
load 0 and capacity 5. -/
theorem available_agents_characterization_witness :
    ({ agent := agentTen, current_load := 0, capacity := 5 } : AvailableAgent) ∈
      AgentAssignmentService.get_available_agents dbAssign :=
  ((available_agents_characterization dbAssign).1 _).mpr (by decide)
